import Mathlib

/-
Verification development for the ROIP chat session coordinator
(Boutrikmohamed8/protectioncivileroip2025).

The coordinator lives in the AppProvider component: it owns the current
user, the user/group directories, the active chat, the message list for
that chat, the call-lifecycle state, the AI-loading flag and the
notification dedupe token, and exposes the operations sendMessage,
shareLocation, initiateCall and endCall.

Shallow embedding conventions:
  - React state is one record, AppState; every setXxx call of the source
    becomes a field update.
  - External collaborators that are not part of the coordinator source
    (userService persistence, geminiService askAI, rtcService media,
    locationService geolocation) are modelled from the spec at their
    boundary: their outcome is passed to the operation as an explicit
    argument (an Except value for calls that may fail), and the
    persistence store is a field of AppState so that the append-and-
    return-full-list contract is explicit.
  - Date.now() readings are explicit Nat arguments: sendMessage reads the
    clock twice (once for the id, once for the timestamp), so it takes
    two readings t1 and t2; a real clock makes the successive readings
    non-decreasing, which theorems take as a hypothesis where needed.
  - JavaScript numbers that the coordinator never computes with
    (coordinates) are modelled as Int; media stream handles are opaque
    tokens.
  - The observable points of an async operation are its suspension
    points (spec section 5); sendMessage therefore also returns the
    observable state at the askAI suspension point, and a flag telling
    whether the invocation rejected (threw).
-/

namespace RoipChat

/-- Message type tag, from the Message interface of types.ts:
text | location | ai_query | ai_response. -/
inductive MsgType
  | text
  | location
  | ai_query
  | ai_response
deriving DecidableEq, Repr

/-- The types sendMessage accepts, from its signature in App.tsx:
text | location | ai_query (default text). -/
inductive SendType
  | text
  | location
  | ai_query
deriving DecidableEq, Repr

def SendType.toMsgType : SendType → MsgType
  | .text => .text
  | .location => .location
  | .ai_query => .ai_query

/-- GeolocationCoordinates from types.ts. The coordinator performs no
arithmetic on coordinates (they are only formatted and stored), so the
JavaScript numbers are carried as Int. -/
structure GeolocationCoordinates where
  latitude : Int
  longitude : Int
  accuracy : Int
  altitude : Option Int
  altitudeAccuracy : Option Int
  heading : Option Int
  speed : Option Int
deriving DecidableEq, Repr

/-- User from types.ts. -/
structure User where
  id : String
  name : String
  password : Option String
  isOnline : Option Bool
  lastKnownLocation : Option GeolocationCoordinates
deriving DecidableEq, Repr

/-- Group from types.ts. -/
structure Group where
  id : String
  name : String
  members : List String
  creatorId : String
deriving DecidableEq, Repr

/-- Message from types.ts. -/
structure Message where
  id : String
  chatId : String
  senderId : String
  senderName : String
  content : String
  timestamp : Nat
  type : MsgType
deriving DecidableEq, Repr

/-- Chat type tag from types.ts: user | group. -/
inductive ChatType
  | user
  | group
deriving DecidableEq, Repr

/-- Chat from types.ts. -/
structure Chat where
  id : String
  type : ChatType
  name : String
  targetId : String
  unreadCount : Option Nat
  lastMessage : Option String
  avatarSeed : Option String
deriving DecidableEq, Repr

/-- ActiveCallType enum from types.ts: NONE, VIDEO, VOICE. -/
inductive ActiveCallType
  | NONE
  | VIDEO
  | VOICE
deriving DecidableEq, Repr

/-- The two kinds initiateCall accepts, from its signature
(ActiveCallType.VOICE | ActiveCallType.VIDEO). -/
inductive CallKind
  | voice
  | video
deriving DecidableEq, Repr

def CallKind.toActive : CallKind → ActiveCallType
  | .voice => .VOICE
  | .video => .VIDEO

/-- MediaStreamAndTracks from rtcService: an opaque live media handle;
its internal structure (stream, tracks) is irrelevant to the coordinator,
so it is modelled as an abstract token. -/
structure MediaStreamAndTracks where
  handle : Nat
deriving DecidableEq, Repr

/-- Notification permission status: default | granted | denied. -/
inductive NotifPermission
  | default
  | granted
  | denied
deriving DecidableEq, Repr

/-- Modelled from the spec: the Persistence collaborator keeps, per chat
id, the stored message list (userService is not under src). -/
abbrev MsgStore := String → List Message

/-- Modelled from the spec: Persistence addMessage(chatId, message)
appends and returns the full updated list; here the updated store. -/
def addMessage (store : MsgStore) (chatId : String) (m : Message) : MsgStore :=
  fun c => if c = chatId then store c ++ [m] else store c

/-- Modelled from the spec: Persistence getMessages(chatId) returns all
messages for a chat, in stored order. -/
def getMessages (store : MsgStore) (chatId : String) : List Message :=
  store chatId

/-- Modelled from the spec: Persistence updateUser(user) upserts and
returns the full user directory. -/
def updateUser (dir : List User) (u : User) : List User :=
  if dir.any (fun x => x.id == u.id) then
    dir.map (fun x => if x.id == u.id then u else x)
  else
    dir ++ [u]

/-- The React state owned by AppProvider, plus the two persistence
stores (message store and user directory) so that the collaborator
contract is explicit. -/
structure AppState where
  currentUser : Option User
  users : List User
  groups : List Group
  activeChat : Option Chat
  messages : List Message
  activeCallType : ActiveCallType
  localMediaStreamAndTracks : Option MediaStreamAndTracks
  isCallViewVisible : Bool
  isLoadingAI : Bool
  lastNotifiedMessageId : Option String
  notificationPermission : NotifPermission
  store : MsgStore
  userStore : List User

/-- The Message record built at the top of sendMessage:
id = Date.now().toString() (first clock reading t1),
timestamp = Date.now() (second clock reading t2). -/
def mkMessage (u : User) (chatId : String) (content : String)
    (ty : MsgType) (t1 t2 : Nat) : Message :=
  { id := toString t1
    chatId := chatId
    senderId := u.id
    senderName := u.name
    content := content
    timestamp := t2
    type := ty }

/-- Result of one sendMessage invocation: the state when the returned
promise settles, the observable state at the askAI suspension point
(ai_query only), and whether the invocation rejected (an uncaught throw
from the awaited askAI). -/
structure SendResult where
  state : AppState
  mid : Option AppState
  threw : Bool

/-- sendMessage from App.tsx. Guard: no-op without a current user or an
active chat. Appends the new message through Persistence and sets the
observable list to the returned list. For ai_query: sets the loading
flag, awaits askAI (whose outcome is the aiResult argument: an error is
an uncaught rejection, ok none a null response, ok (some r) a response
message), appends a returned response, and clears the loading flag -
except that an askAI rejection propagates before the clearing line runs. -/
def sendMessage (s : AppState) (content : String) (ty : SendType)
    (t1 t2 : Nat) (aiResult : Except Unit (Option Message)) : SendResult :=
  match s.currentUser, s.activeChat with
  | some u, some chat =>
    let newMessage := mkMessage u chat.id content ty.toMsgType t1 t2
    let updatedMessages := getMessages s.store chat.id ++ [newMessage]
    let s1 : AppState :=
      { s with store := addMessage s.store chat.id newMessage
               messages := updatedMessages }
    match ty with
    | .ai_query =>
      let s2 : AppState := { s1 with isLoadingAI := true }
      match aiResult with
      | .error _ => { state := s2, mid := some s2, threw := true }
      | .ok none =>
        { state := { s2 with isLoadingAI := false }, mid := some s2, threw := false }
      | .ok (some aiResponse) =>
        let updatedAiMessages := getMessages s2.store chat.id ++ [aiResponse]
        let s3 : AppState :=
          { s2 with store := addMessage s2.store chat.id aiResponse
                    messages := updatedAiMessages
                    isLoadingAI := false }
        { state := s3, mid := some s2, threw := false }
    | _ => { state := s1, mid := none, threw := false }
  | _, _ => { state := s, mid := none, threw := false }

/-- The failure values the catch block of shareLocation distinguishes:
  - geoError code message: an object with both a code and a message
    property (the GeolocationPositionError shape);
  - errorObj message: an object that is an instanceof Error (and does
    not expose a code property);
  - otherObj coerced: any other non-null object; coerced is the result
    of String(error) (none when the coercion itself throws);
  - strVal: a primitive string;
  - nullVal: null or any other non-object, non-string value, which the
    catch block leaves at the initial default message. -/
inductive JSValue
  | geoError (code : Int) (message : String)
  | errorObj (message : String)
  | otherObj (coerced : Option String)
  | strVal (s : String)
  | nullVal
deriving DecidableEq, Repr

/-- JavaScript toLowerCase over the character list. -/
def toLowerCase (s : String) : String :=
  String.mk (s.data.map Char.toLower)

/-- The error-normalization logic of the catch block inside
shareLocation (App.tsx), producing userFriendlyMessage. The switch on
geoError.code maps 1, 2, 3 to fixed French texts and any other code to a
generic text embedding the message (JavaScript message || means an empty
message falls back to the Inconnue placeholder) and the code. -/
def normalizeLocationError (e : JSValue) : String :=
  match e with
  | .geoError code message =>
    if code = 1 then
      "Permission de géolocalisation refusée par l\u0027utilisateur."
    else if code = 2 then
      "Information de position non disponible."
    else if code = 3 then
      "La demande de position a expiré."
    else
      "Erreur de géolocalisation: " ++
        (if message = "" then "Inconnue" else message) ++
        " (code " ++ toString code ++ ")."
  | .errorObj message => message
  | .otherObj (some coerced) =>
    if toLowerCase coerced = "[object object]" then
      "Détails de l\u0027erreur non disponibles."
    else coerced
  | .otherObj none =>
    "Détails de l\u0027erreur non disponibles (conversion en chaîne impossible)."
  | .strVal s => s
  | .nullVal =>
    "Une erreur inconnue est survenue lors du partage de la position."

/-- shareLocation from App.tsx. Guard: no-op without a current user or
an active chat. The outcome of the awaited getCurrentLocation call is
the locResult argument. On success: formats the coordinates, sends a
location-typed message, then replaces the current user with a copy
carrying the fetched coordinates and upserts it into the persisted user
directory (setUsers receives the full directory updateUser returns). On
failure: normalizes the error and sends a text message with the
prefixed explanation. The clock readings t1 t2 feed the inner
sendMessage. -/
def shareLocation (s : AppState)
    (locResult : Except JSValue GeolocationCoordinates)
    (t1 t2 : Nat) : AppState :=
  match s.currentUser, s.activeChat with
  | some u, some _ =>
    match locResult with
    | .ok coords =>
      let locationString :=
        "Location: " ++ toString coords.latitude ++ ", " ++ toString coords.longitude
      let s1 := (sendMessage s locationString .location t1 t2 (.ok none)).state
      let updatedUser : User := { u with lastKnownLocation := some coords }
      let newDir := updateUser s1.userStore updatedUser
      { s1 with currentUser := some updatedUser
                users := newDir
                userStore := newDir }
    | .error e =>
      let userFriendlyMessage := normalizeLocationError e
      (sendMessage s ("Impossible de partager la position: " ++ userFriendlyMessage)
        .text t1 t2 (.ok none)).state
  | _, _ => s

/-- Calls made to the Media collaborator (rtcService) during an
operation, in order: acquire audioOnly is startLocalMedia(null,
audioOnly), release is stopLocalMedia(). -/
inductive MediaEvent
  | acquire (audioOnly : Bool)
  | release
deriving DecidableEq, Repr

/-- initiateCall from App.tsx. Guard: no-op without an active chat (the
call state is not inspected). The outcome of the awaited
startLocalMedia(null, callType === VOICE) call is the media argument.
On success: stores the handle, sets the call state to the requested
kind, shows the call view, and sends the started status message. On
failure: sends the failure status message; call fields are untouched.
Also returns the Media collaborator calls made. -/
def initiateCall (s : AppState) (callType : CallKind)
    (media : Except Unit MediaStreamAndTracks)
    (t1 t2 : Nat) : AppState × List MediaEvent :=
  match s.activeChat with
  | none => (s, [])
  | some _ =>
    match media with
    | .ok m =>
      let s1 : AppState :=
        { s with localMediaStreamAndTracks := some m
                 activeCallType := callType.toActive
                 isCallViewVisible := true }
      ((sendMessage s1
          ("Appel " ++ (if callType = .video then "vidéo" else "vocal") ++
            " démarré (simulation).")
          .text t1 t2 (.ok none)).state,
       [.acquire (callType = .voice)])
    | .error _ =>
      ((sendMessage s
          ("Impossible de démarrer l\u0027appel " ++
            (if callType = .video then "vidéo" else "vocal") ++ ".")
          .text t1 t2 (.ok none)).state,
       [.acquire (callType = .voice)])

/-- endCall from App.tsx. Unconditionally calls stopLocalMedia (the
Media collaborator release is best-effort per the spec: it handles its
own failure, so its outcome releaseOk reaches no state field), clears
the stored handle, resets the call state to NONE, hides the call view,
and - only when an active chat is present - sends the ended status
message through sendMessage (which itself no-ops without a current
user). Also returns the Media collaborator calls made. -/
def endCall (s : AppState) (releaseOk : Bool) (t1 t2 : Nat) :
    AppState × List MediaEvent :=
  let _ := releaseOk
  let s1 : AppState :=
    { s with localMediaStreamAndTracks := none
             activeCallType := .NONE
             isCallViewVisible := false }
  match s.activeChat with
  | some _ =>
    ((sendMessage s1 "Appel terminé (simulation)." .text t1 t2 (.ok none)).state,
     [.release])
  | none => (s1, [.release])

/-- A raised system notification: title, body and the per-message tag
passed to the Notification constructor. -/
structure RaisedNotif where
  title : String
  body : String
  tag : String
deriving DecidableEq, Repr

/-- The chat partner resolution of the notification effect: a user
lookup for user chats, a group lookup for group chats; the name of the
match, if any. -/
def partnerName (s : AppState) (chat : Chat) : Option String :=
  match chat.type with
  | .user => (s.users.find? (fun u => u.id == chat.targetId)).map User.name
  | .group => (s.groups.find? (fun g => g.id == chat.targetId)).map Group.name

/-- The notification title: the partner name when resolved, otherwise
the group fallback with the chat name, otherwise the generic title. -/
def notifTitle (s : AppState) (chat : Chat) : String :=
  match partnerName s chat with
  | some name => "Nouveau message de " ++ name
  | none =>
    match chat.type with
    | .group => "Nouveau message dans " ++ chat.name
    | .user => "Nouveau message"

/-- The notification body: the raw content, replaced by a fixed string
for location / ai_query / ai_response messages, then truncated to 97
characters plus an ellipsis when longer than 100. -/
def notifBody (lastMessage : Message) : String :=
  let body :=
    match lastMessage.type with
    | .location => "Coordonnées GPS partagées"
    | .ai_query => "Question posée à l\u0027IA"
    | .ai_response => "Réponse de l\u0027IA reçue"
    | .text => lastMessage.content
  if body.length > 100 then body.take 97 ++ "..." else body

/-- The notification effect of AppProvider (the useEffect watching the
message list). Fires only with granted permission, a current user, an
active chat and a non-empty list; inspects the last message; skips it
when its id equals the dedupe token or its sender is the current user;
raises only when the document is hidden, recording the id as the new
dedupe token. A failure of the platform Notification constructor is
caught and logged and the token is still recorded afterwards, so the
raised value is returned as data and no failure changes the outcome. -/
def notifyEffect (s : AppState) (docHidden : Bool) :
    AppState × Option RaisedNotif :=
  match s.notificationPermission, s.currentUser, s.activeChat with
  | .granted, some u, some chat =>
    match s.messages.getLast? with
    | some lastMessage =>
      if some lastMessage.id ≠ s.lastNotifiedMessageId ∧ lastMessage.senderId ≠ u.id then
        if docHidden then
          ({ s with lastNotifiedMessageId := some lastMessage.id },
           some { title := notifTitle s chat
                  body := notifBody lastMessage
                  tag := lastMessage.id })
        else (s, none)
      else (s, none)
    | none => (s, none)
  | _, _, _ => (s, none)

/-- The reactive consequences of changing the active chat, from the two
useEffect hooks watching activeChat: reload the message list from
Persistence for the new chat (clear it when none) and reset the dedupe
token. -/
def setActiveChat (s : AppState) (c : Option Chat) : AppState :=
  { s with activeChat := c
           messages := match c with
             | some chat => getMessages s.store chat.id
             | none => []
           lastNotifiedMessageId := none }

/-- The call-lifecycle invariant of the spec data model: a non-NONE call
state implies a non-null media handle, and the call view is hidden
whenever the call state is NONE. -/
def CallInv (s : AppState) : Prop :=
  (s.activeCallType ≠ .NONE → s.localMediaStreamAndTracks ≠ none) ∧
  (s.activeCallType = .NONE → s.isCallViewVisible = false)

instance (s : AppState) : Decidable (CallInv s) := by
  unfold CallInv
  infer_instance

/-- States reachable from a through the call-lifecycle transitions,
interleaved with environment steps (any other coordinator activity:
messaging, chat switches, directory updates) that do not touch the
three call fields - which is every operation other than initiateCall
and endCall. -/
inductive Reach : AppState → AppState → Prop
  | refl (s : AppState) : Reach s s
  | callInit (a s : AppState) (k : CallKind) (m : Except Unit MediaStreamAndTracks)
      (t1 t2 : Nat) : Reach a s → Reach a (initiateCall s k m t1 t2).1
  | callEnd (a s : AppState) (ok : Bool) (t1 t2 : Nat) :
      Reach a s → Reach a (endCall s ok t1 t2).1
  | env (a s s' : AppState) : Reach a s →
      s'.activeCallType = s.activeCallType →
      s'.localMediaStreamAndTracks = s.localMediaStreamAndTracks →
      s'.isCallViewVisible = s.isCallViewVisible →
      Reach a s'

/-! Concrete fixtures used by witnesses and counterexamples. -/

def u1 : User :=
  { id := "u1", name := "Alice", password := none, isOnline := some true,
    lastKnownLocation := none }

def u2 : User :=
  { id := "u2", name := "Bob", password := none, isOnline := none,
    lastKnownLocation := none }

def chat1 : Chat :=
  { id := "c1", type := .user, name := "Bob", targetId := "u2",
    unreadCount := none, lastMessage := none, avatarSeed := none }

def emptyStore : MsgStore := fun _ => []

def baseState : AppState :=
  { currentUser := some u1
    users := [u1, u2]
    groups := []
    activeChat := some chat1
    messages := []
    activeCallType := .NONE
    localMediaStreamAndTracks := none
    isCallViewVisible := false
    isLoadingAI := false
    lastNotifiedMessageId := none
    notificationPermission := .granted
    store := emptyStore
    userStore := [u1, u2] }

def noUserState : AppState := { baseState with currentUser := none }

def aiResp : Message :=
  { id := "ai1", chatId := "c1", senderId := "AI", senderName := "Assistant",
    content := "réponse", timestamp := 11, type := .ai_response }

def coords57 : GeolocationCoordinates :=
  { latitude := 5, longitude := 7, accuracy := 1, altitude := none,
    altitudeAccuracy := none, heading := none, speed := none }

/-! Helper lemmas about sendMessage. -/

/-- sendMessage never touches the session fields outside the message
list, the store and the loading flag. -/
theorem sendMessage_preserves (s : AppState) (content : String) (ty : SendType)
    (t1 t2 : Nat) (ai : Except Unit (Option Message)) :
    (sendMessage s content ty t1 t2 ai).state.currentUser = s.currentUser ∧
    (sendMessage s content ty t1 t2 ai).state.activeChat = s.activeChat ∧
    (sendMessage s content ty t1 t2 ai).state.users = s.users ∧
    (sendMessage s content ty t1 t2 ai).state.userStore = s.userStore ∧
    (sendMessage s content ty t1 t2 ai).state.activeCallType = s.activeCallType ∧
    (sendMessage s content ty t1 t2 ai).state.localMediaStreamAndTracks =
      s.localMediaStreamAndTracks ∧
    (sendMessage s content ty t1 t2 ai).state.isCallViewVisible = s.isCallViewVisible := by
  cases hcu : s.currentUser <;> cases hac : s.activeChat <;> cases ty <;>
    rcases ai with e | _ | r <;> simp [sendMessage, hcu, hac]

/-- A sendMessage invocation whose AI outcome is a null response (the
outcome is irrelevant for text and location sends) appends exactly the
new message to the active chat and leaves every other chat untouched. -/
theorem send_append (s : AppState) (u : User) (ch : Chat) (content : String)
    (ty : SendType) (t1 t2 : Nat)
    (hu : s.currentUser = some u) (hc : s.activeChat = some ch) :
    (sendMessage s content ty t1 t2 (.ok none)).state.store ch.id =
      s.store ch.id ++ [mkMessage u ch.id content ty.toMsgType t1 t2] ∧
    (∀ c, c ≠ ch.id →
      (sendMessage s content ty t1 t2 (.ok none)).state.store c = s.store c) ∧
    (sendMessage s content ty t1 t2 (.ok none)).state.messages =
      s.store ch.id ++ [mkMessage u ch.id content ty.toMsgType t1 t2] ∧
    (sendMessage s content ty t1 t2 (.ok none)).threw = false := by
  refine ⟨?_, fun c hcne => ?_, ?_, ?_⟩ <;>
    cases ty <;>
    simp [sendMessage, hu, hc, addMessage, getMessages, SendType.toMsgType] <;>
    simp [hcne]

/-- C4: sendMessage with type text and a current user and active chat
present appends exactly one message to the active chat, with senderId
the current user, chatId the active chat and type text; without a
current user or an active chat it appends nothing and changes no state. -/
theorem c4_sendMessage_text (s : AppState) (u : User) (ch : Chat)
    (content : String) (t1 t2 : Nat) (ai : Except Unit (Option Message))
    (s' : AppState)
    (hu : s.currentUser = some u) (hc : s.activeChat = some ch)
    (hskip : s'.currentUser = none ∨ s'.activeChat = none) :
    (sendMessage s content .text t1 t2 ai).state.store ch.id =
      s.store ch.id ++ [mkMessage u ch.id content .text t1 t2] ∧
    (∀ c, c ≠ ch.id →
      (sendMessage s content .text t1 t2 ai).state.store c = s.store c) ∧
    (sendMessage s content .text t1 t2 ai).state.messages =
      s.store ch.id ++ [mkMessage u ch.id content .text t1 t2] ∧
    (mkMessage u ch.id content .text t1 t2).senderId = u.id ∧
    (mkMessage u ch.id content .text t1 t2).chatId = ch.id ∧
    (mkMessage u ch.id content .text t1 t2).type = .text ∧
    sendMessage s' content .text t1 t2 ai = { state := s', mid := none, threw := false } := by
  refine ⟨?_, fun c hcne => ?_, ?_, rfl, rfl, rfl, ?_⟩
  · simp [sendMessage, hu, hc, addMessage, getMessages, SendType.toMsgType]
  · simp [sendMessage, hu, hc, addMessage, getMessages, hcne]
  · simp [sendMessage, hu, hc, addMessage, getMessages, SendType.toMsgType]
  · rcases hskip with h | h
    · cases hac : s'.activeChat <;> simp [sendMessage, h, hac]
    · cases hcu : s'.currentUser <;> simp [sendMessage, h, hcu]

/-- C4 witness: the concrete base session appends exactly the expected
message, and a session without a current user is left untouched. -/
theorem c4_sendMessage_text_witness :
    (sendMessage baseState "salut" .text 1 2 (.ok none)).state.store "c1" =
      baseState.store "c1" ++ [mkMessage u1 "c1" "salut" .text 1 2] ∧
    sendMessage noUserState "salut" .text 1 2 (.ok none) =
      { state := noUserState, mid := none, threw := false } := by
  have h := c4_sendMessage_text baseState u1 chat1 "salut" 1 2 (.ok none)
    noUserState rfl rfl (Or.inl rfl)
  exact ⟨h.1, h.2.2.2.2.2.2⟩

/-- C3: an ai_query send whose responder returns a response message
appends exactly two messages, the query then the response; the state
observable at the askAI suspension point (strictly between the two
appends) has the loading flag true and exactly the query appended, and
the flag is false before the invocation (hypothesis) and false after it
settles. -/
theorem c3_ai_query_success (s : AppState) (u : User) (ch : Chat)
    (content : String) (t1 t2 : Nat) (resp : Message)
    (hu : s.currentUser = some u) (hc : s.activeChat = some ch)
    (hload : s.isLoadingAI = false) :
    (sendMessage s content .ai_query t1 t2 (.ok (some resp))).state.store ch.id =
      s.store ch.id ++ [mkMessage u ch.id content .ai_query t1 t2, resp] ∧
    (∀ c, c ≠ ch.id →
      (sendMessage s content .ai_query t1 t2 (.ok (some resp))).state.store c =
        s.store c) ∧
    (sendMessage s content .ai_query t1 t2 (.ok (some resp))).state.messages =
      s.store ch.id ++ [mkMessage u ch.id content .ai_query t1 t2, resp] ∧
    (sendMessage s content .ai_query t1 t2 (.ok (some resp))).state.isLoadingAI = false ∧
    (sendMessage s content .ai_query t1 t2 (.ok (some resp))).threw = false ∧
    ((sendMessage s content .ai_query t1 t2 (.ok (some resp))).mid.map
        (fun m => m.store ch.id)) =
      some (s.store ch.id ++ [mkMessage u ch.id content .ai_query t1 t2]) ∧
    ((sendMessage s content .ai_query t1 t2 (.ok (some resp))).mid.map
        AppState.messages) =
      some (s.store ch.id ++ [mkMessage u ch.id content .ai_query t1 t2]) ∧
    ((sendMessage s content .ai_query t1 t2 (.ok (some resp))).mid.map
        AppState.isLoadingAI) = some true ∧
    s.isLoadingAI = false := by
  refine ⟨?_, fun c hcne => ?_, ?_, ?_, ?_, ?_, ?_, ?_, hload⟩ <;>
    simp [sendMessage, hu, hc, addMessage, getMessages, SendType.toMsgType] <;>
    simp [hcne]

/-- C3 witness: the concrete base session with a responder returning
aiResp yields the query-then-response list and a mid state with the
loading flag up. -/
theorem c3_ai_query_success_witness :
    (sendMessage baseState "question" .ai_query 1 2 (.ok (some aiResp))).state.store "c1" =
      baseState.store "c1" ++ [mkMessage u1 "c1" "question" .ai_query 1 2, aiResp] ∧
    ((sendMessage baseState "question" .ai_query 1 2 (.ok (some aiResp))).mid.map
        AppState.isLoadingAI) = some true := by
  have h := c3_ai_query_success baseState u1 chat1 "question" 1 2 aiResp rfl rfl rfl
  exact ⟨h.1, h.2.2.2.2.2.2.2.1⟩

/-- C1 counterexample: with an AI responder whose failure is a thrown
rejection, the loading flag is still true when the sendMessage
invocation settles, contradicting the claim that the flag is false
after every failing ai_query invocation. -/
theorem c1_ai_failure_cex :
    baseState.currentUser = some u1 ∧ baseState.activeChat = some chat1 ∧
    (sendMessage baseState "q" .ai_query 1 1 (.error ())).threw = true ∧
    (sendMessage baseState "q" .ai_query 1 1 (.error ())).state.isLoadingAI = true := by
  exact ⟨rfl, rfl, rfl, rfl⟩

/-- C1 amended: the query message is appended exactly once whatever the
responder outcome; when the responder fails by resolving with a null
response the loading flag is false afterwards, but when it fails with a
thrown rejection the invocation rejects with the flag left true (there
is no try/finally around the await). -/
theorem c1_ai_failure_amended (s : AppState) (u : User) (ch : Chat)
    (content : String) (t1 t2 : Nat)
    (hu : s.currentUser = some u) (hc : s.activeChat = some ch) :
    ((sendMessage s content .ai_query t1 t2 (.ok none)).state.isLoadingAI = false ∧
     (sendMessage s content .ai_query t1 t2 (.ok none)).state.store ch.id =
       s.store ch.id ++ [mkMessage u ch.id content .ai_query t1 t2] ∧
     (sendMessage s content .ai_query t1 t2 (.ok none)).threw = false) ∧
    ((sendMessage s content .ai_query t1 t2 (.error ())).state.isLoadingAI = true ∧
     (sendMessage s content .ai_query t1 t2 (.error ())).state.store ch.id =
       s.store ch.id ++ [mkMessage u ch.id content .ai_query t1 t2] ∧
     (sendMessage s content .ai_query t1 t2 (.error ())).threw = true) := by
  refine ⟨⟨?_, ?_, ?_⟩, ⟨?_, ?_, ?_⟩⟩ <;>
    simp [sendMessage, hu, hc, addMessage, getMessages, SendType.toMsgType]

/-- C1 amended witness: the base session, null-response failure and
thrown failure, at concrete inputs. -/
theorem c1_ai_failure_amended_witness :
    (sendMessage baseState "q" .ai_query 3 4 (.ok none)).state.isLoadingAI = false ∧
    (sendMessage baseState "q" .ai_query 3 4 (.error ())).state.store "c1" =
      baseState.store "c1" ++ [mkMessage u1 "c1" "q" .ai_query 3 4] := by
  have h := c1_ai_failure_amended baseState u1 chat1 "q" 3 4 rfl rfl
  exact ⟨h.1.1, h.2.2.1⟩

/-! Helper lemmas about the user-directory upsert. -/

/-- Replacing every entry whose id matches makes the first lookup for
that id return the new user, provided some entry matched. -/
theorem find_map_replace (dir : List User) (u : User)
    (h : dir.any (fun x => x.id == u.id) = true) :
    (dir.map (fun x => if x.id == u.id then u else x)).find?
      (fun x => x.id == u.id) = some u := by
  induction dir with
  | nil => simp at h
  | cons a l ih =>
    simp only [List.any_cons, Bool.or_eq_true] at h
    simp only [List.map_cons]
    by_cases ha : (a.id == u.id) = true
    · rw [if_pos ha]
      exact @List.find?_cons_of_pos _ (fun x => x.id == u.id) u _ (by simp)
    · rw [if_neg ha]
      rw [@List.find?_cons_of_neg _ (fun x => x.id == u.id) a _ ha]
      rcases h with h | h
      · exact absurd h ha
      · exact ih h

/-- Appending the new user finds it when no existing entry matched. -/
theorem find_append_new (dir : List User) (u : User)
    (h : dir.any (fun x => x.id == u.id) = false) :
    (dir ++ [u]).find? (fun x => x.id == u.id) = some u := by
  induction dir with
  | nil => simp [List.find?_cons]
  | cons a l ih =>
    simp only [List.any_cons, Bool.or_eq_false_iff] at h
    simp only [List.cons_append, List.find?_cons, h.1]
    exact ih h.2

/-- After the upsert, looking the user up by id in the returned
directory yields exactly the upserted record. -/
theorem updateUser_find (dir : List User) (u : User) :
    (updateUser dir u).find? (fun x => x.id == u.id) = some u := by
  unfold updateUser
  by_cases h : dir.any (fun x => x.id == u.id) = true
  · simp only [h, if_true]
    exact find_map_replace dir u h
  · have h' : dir.any (fun x => x.id == u.id) = false := by
      cases hb : dir.any (fun x => x.id == u.id)
      · rfl
      · exact absurd hb h
    simp only [h', Bool.false_eq_true, if_false]
    exact find_append_new dir u h'

/-- C2: with a current user and an active chat, shareLocation on a
successful fetch appends exactly one location-typed message with
content Location: lat, lon and stores the fetched coordinates both in
the current-user slot and in the user directory; on a failed fetch it
appends exactly one text message carrying the normalized error text and
leaves the current user and the directory untouched. -/
theorem c2_shareLocation (s : AppState) (u : User) (ch : Chat)
    (coords : GeolocationCoordinates) (e : JSValue) (t1 t2 : Nat)
    (hu : s.currentUser = some u) (hc : s.activeChat = some ch) :
    ((shareLocation s (.ok coords) t1 t2).store ch.id =
       s.store ch.id ++
         [mkMessage u ch.id
           ("Location: " ++ toString coords.latitude ++ ", " ++
             toString coords.longitude) .location t1 t2] ∧
     (∀ c, c ≠ ch.id → (shareLocation s (.ok coords) t1 t2).store c = s.store c) ∧
     (shareLocation s (.ok coords) t1 t2).currentUser =
       some { u with lastKnownLocation := some coords } ∧
     (shareLocation s (.ok coords) t1 t2).users.find? (fun x => x.id == u.id) =
       some { u with lastKnownLocation := some coords } ∧
     (shareLocation s (.ok coords) t1 t2).userStore =
       (shareLocation s (.ok coords) t1 t2).users) ∧
    ((shareLocation s (.error e) t1 t2).store ch.id =
       s.store ch.id ++
         [mkMessage u ch.id
           ("Impossible de partager la position: " ++ normalizeLocationError e)
           .text t1 t2] ∧
     (∀ c, c ≠ ch.id → (shareLocation s (.error e) t1 t2).store c = s.store c) ∧
     (shareLocation s (.error e) t1 t2).currentUser = s.currentUser ∧
     (shareLocation s (.error e) t1 t2).users = s.users ∧
     (shareLocation s (.error e) t1 t2).userStore = s.userStore) := by
  have hsend := send_append s u ch
    ("Location: " ++ toString coords.latitude ++ ", " ++ toString coords.longitude)
    .location t1 t2 hu hc
  have hpres := sendMessage_preserves s
    ("Location: " ++ toString coords.latitude ++ ", " ++ toString coords.longitude)
    .location t1 t2 (.ok none)
  have hsendE := send_append s u ch
    ("Impossible de partager la position: " ++ normalizeLocationError e)
    .text t1 t2 hu hc
  have hpresE := sendMessage_preserves s
    ("Impossible de partager la position: " ++ normalizeLocationError e)
    .text t1 t2 (.ok none)
  constructor
  · refine ⟨?_, fun c hcne => ?_, ?_, ?_, ?_⟩
    · simp only [shareLocation, hu, hc]
      exact hsend.1
    · simp only [shareLocation, hu, hc]
      exact hsend.2.1 c hcne
    · simp only [shareLocation, hu, hc]
    · simp only [shareLocation, hu, hc]
      exact updateUser_find
        ((sendMessage s ("Location: " ++ toString coords.latitude ++ ", " ++
          toString coords.longitude) .location t1 t2 (.ok none)).state.userStore)
        { u with lastKnownLocation := some coords }
    · simp only [shareLocation, hu, hc]
  · refine ⟨?_, fun c hcne => ?_, ?_, ?_, ?_⟩
    · simp only [shareLocation, hu, hc]
      exact hsendE.1
    · simp only [shareLocation, hu, hc]
      exact hsendE.2.1 c hcne
    · simp only [shareLocation, hu, hc]
      exact hpresE.1.trans hu
    · simp only [shareLocation, hu, hc]
      exact hpresE.2.2.1
    · simp only [shareLocation, hu, hc]
      exact hpresE.2.2.2.1

/-- C2 witness: a concrete successful fetch stores the coordinates and
appends the formatted location message; a concrete failed fetch leaves
the current user in place. -/
theorem c2_shareLocation_witness :
    (shareLocation baseState (.ok coords57) 1 2).store "c1" =
      baseState.store "c1" ++
        [mkMessage u1 "c1" "Location: 5, 7" .location 1 2] ∧
    (shareLocation baseState (.ok coords57) 1 2).currentUser =
      some { u1 with lastKnownLocation := some coords57 } ∧
    (shareLocation baseState (.error .nullVal) 1 2).currentUser = baseState.currentUser := by
  have h := c2_shareLocation baseState u1 chat1 coords57 .nullVal 1 2 rfl rfl
  exact ⟨h.1.1, h.1.2.2.1, h.2.2.2.1⟩

/-- C5 counterexample: with an active chat but no current user, endCall
invokes the pipeline but the pipeline no-ops, so no call-ended message
is appended - contradicting emission if and only if an active chat is
present. -/
theorem c5_endCall_cex :
    noUserState.activeChat = some chat1 ∧
    (endCall noUserState true 1 1).1.store "c1" = noUserState.store "c1" := by
  exact ⟨rfl, rfl⟩

/-- C5 amended: endCall always clears the stream handle, resets the
call state to NONE and hides the call view, whatever the outcome of the
media release, and it performs exactly one release call; the call-ended
status message is appended precisely when both an active chat and a
current user are present (the pipeline is invoked when there is an
active chat but silently no-ops without a current user). -/
theorem c5_endCall_amended (s : AppState) (ok : Bool) (t1 t2 : Nat) :
    (endCall s ok t1 t2).1.localMediaStreamAndTracks = none ∧
    (endCall s ok t1 t2).1.activeCallType = .NONE ∧
    (endCall s ok t1 t2).1.isCallViewVisible = false ∧
    (endCall s ok t1 t2).2 = [.release] ∧
    (∀ ch u, s.activeChat = some ch → s.currentUser = some u →
      (endCall s ok t1 t2).1.store ch.id =
        s.store ch.id ++
          [mkMessage u ch.id "Appel terminé (simulation)." .text t1 t2]) ∧
    ((s.currentUser = none ∨ s.activeChat = none) →
      ∀ c, (endCall s ok t1 t2).1.store c = s.store c) := by
  refine ⟨?_, ?_, ?_, ?_, ?_, ?_⟩
  · cases hac : s.activeChat <;>
      simp [endCall, hac, (sendMessage_preserves _ _ _ _ _ _).2.2.2.2.2.1]
  · cases hac : s.activeChat <;>
      simp [endCall, hac, (sendMessage_preserves _ _ _ _ _ _).2.2.2.2.1]
  · cases hac : s.activeChat <;>
      simp [endCall, hac, (sendMessage_preserves _ _ _ _ _ _).2.2.2.2.2.2]
  · cases hac : s.activeChat <;> simp [endCall, hac]
  · intro ch u hch hcu
    have h := send_append
      { s with localMediaStreamAndTracks := none
               activeCallType := .NONE
               isCallViewVisible := false
               activeChat := some ch }
      u ch "Appel terminé (simulation)." SendType.text t1 t2 hcu rfl
    simp only [endCall, hch]
    exact h.1
  · intro hskip c
    rcases hskip with h | h
    · cases hac : s.activeChat
      · simp [endCall, hac]
      · simp [endCall, hac, sendMessage, h]
    · simp [endCall, h]

/-- C5 amended witness: the concrete base session ends a call with the
fields reset and exactly the ended message appended. -/
theorem c5_endCall_amended_witness :
    (endCall baseState true 1 1).1.activeCallType = .NONE ∧
    (endCall baseState true 1 1).1.store "c1" =
      baseState.store "c1" ++
        [mkMessage u1 "c1" "Appel terminé (simulation)." .text 1 1] := by
  have h := c5_endCall_amended baseState true 1 1
  exact ⟨h.2.1, h.2.2.2.2.1 chat1 u1 rfl rfl⟩

/-- C6 counterexample: an Error instance whose message is the empty
string is normalized to the empty string, so the normalizer does not
return a non-empty string for every failure value. -/
theorem c6_normalizer_cex :
    normalizeLocationError (.errorObj "") = "" := rfl

/-- C6 amended: the normalizer is a total function (it cannot throw);
it returns a non-empty string for each of the listed failure shapes;
an object with both a numeric code and a message maps code 1, 2, 3 to
the fixed texts and any other code to the generic text embedding the
code and the message (with the Inconnue placeholder when the message is
empty); an Error instance without such a code yields its message
verbatim - hence the empty string for an empty message. -/
theorem c6_normalizer_amended (c : Int) (m : String)
    (h1 : c ≠ 1) (h2 : c ≠ 2) (h3 : c ≠ 3) (hm : m ≠ "") :
    (∀ m', normalizeLocationError (.geoError 1 m') =
      "Permission de géolocalisation refusée par l\u0027utilisateur.") ∧
    (∀ m', normalizeLocationError (.geoError 2 m') =
      "Information de position non disponible.") ∧
    (∀ m', normalizeLocationError (.geoError 3 m') =
      "La demande de position a expiré.") ∧
    normalizeLocationError (.geoError c m) =
      "Erreur de géolocalisation: " ++ m ++ " (code " ++ toString c ++ ")." ∧
    (∀ m', normalizeLocationError (.errorObj m') = m') ∧
    normalizeLocationError (.geoError 1 "x") ≠ "" ∧
    normalizeLocationError (.geoError 2 "x") ≠ "" ∧
    normalizeLocationError (.geoError 3 "x") ≠ "" ∧
    normalizeLocationError (.geoError 99 "y") ≠ "" ∧
    normalizeLocationError (.errorObj "z") ≠ "" ∧
    normalizeLocationError (.strVal "w") ≠ "" ∧
    normalizeLocationError (.otherObj (some "[object Object]")) ≠ "" ∧
    normalizeLocationError .nullVal ≠ "" := by
  refine ⟨fun m' => rfl, fun m' => rfl, fun m' => rfl, ?_, fun m' => rfl,
    ?_, ?_, ?_, ?_, ?_, ?_, ?_, ?_⟩ <;>
    simp [normalizeLocationError, h1, h2, h3, hm] <;> decide

/-- C6 amended witness: the generic branch at code 99 with message y. -/
theorem c6_normalizer_amended_witness :
    normalizeLocationError (.geoError 99 "y") =
      "Erreur de géolocalisation: y (code 99)." := by
  exact (c6_normalizer_amended 99 "y" (by decide) (by decide) (by decide)
    (by decide)).2.2.2.1

/-! Call-lifecycle invariant preservation. -/

/-- initiateCall preserves the call-lifecycle invariant: on success all
three call fields are set coherently, on failure or guard skip they are
untouched. -/
theorem initiateCall_inv (s : AppState) (k : CallKind)
    (m : Except Unit MediaStreamAndTracks) (t1 t2 : Nat) (h : CallInv s) :
    CallInv (initiateCall s k m t1 t2).1 := by
  rcases hac : s.activeChat with _ | ch
  · simpa [initiateCall, hac] using h
  · rcases m with e | med
    · have hp := fun c => sendMessage_preserves s c SendType.text t1 t2 (.ok none)
      simp only [initiateCall, hac]
      refine ⟨fun hne => ?_, fun hn => ?_⟩
      · rw [(hp _).2.2.2.2.2.1]
        exact h.1 (by rwa [(hp _).2.2.2.2.1] at hne)
      · rw [(hp _).2.2.2.2.2.2]
        exact h.2 (by rwa [(hp _).2.2.2.2.1] at hn)
    · have hp := fun c => sendMessage_preserves
        { s with localMediaStreamAndTracks := some med
                 activeCallType := k.toActive
                 isCallViewVisible := true
                 activeChat := some ch }
        c SendType.text t1 t2 (.ok none)
      simp only [initiateCall, hac]
      refine ⟨fun _ => ?_, fun hn => ?_⟩
      · rw [(hp _).2.2.2.2.2.1]
        simp
      · rw [(hp _).2.2.2.2.1] at hn
        cases k <;> simp [CallKind.toActive] at hn

/-- endCall preserves (in fact re-establishes) the call-lifecycle
invariant: it resets all three call fields. -/
theorem endCall_inv (s : AppState) (ok : Bool) (t1 t2 : Nat) :
    CallInv (endCall s ok t1 t2).1 := by
  rcases hac : s.activeChat with _ | ch
  · simp only [endCall, hac]
    exact ⟨fun hne => absurd rfl hne, fun _ => rfl⟩
  · simp only [endCall, hac]
    have hp := sendMessage_preserves
      { s with localMediaStreamAndTracks := none
               activeCallType := .NONE
               isCallViewVisible := false
               activeChat := some ch }
      "Appel terminé (simulation)." SendType.text t1 t2 (.ok none)
    exact ⟨fun hne => absurd hp.2.2.2.2.1 hne, fun _ => hp.2.2.2.2.2.2⟩

/-- C7: every state reachable through initiateCall and endCall from a
state satisfying the call-lifecycle invariant satisfies it: a non-NONE
call state implies a non-null stored media handle, and the call view is
hidden whenever the call state is NONE (it is set true only after media
acquisition succeeds and reset together with the state). -/
theorem c7_call_invariant (s0 s : AppState) (h0 : CallInv s0)
    (hr : Reach s0 s) : CallInv s := by
  induction hr with
  | refl => exact h0
  | callInit s' k m t1 t2 _ ih => exact initiateCall_inv s' k m t1 t2 ih
  | callEnd s' ok t1 t2 _ _ => exact endCall_inv s' ok t1 t2
  | env s' s'' _ hct hmed hvis ih =>
    refine ⟨fun hne => ?_, fun hn => ?_⟩
    · rw [hmed]
      exact ih.1 (by rwa [hct] at hne)
    · rw [hvis]
      exact ih.2 (by rwa [hct] at hn)

/-- C7 witness: the invariant holds in the concrete state reached by a
successful video initiateCall from the idle base session. -/
theorem c7_call_invariant_witness :
    CallInv ((initiateCall baseState .video (.ok ⟨7⟩) 1 1).1) :=
  c7_call_invariant baseState _ (by decide)
    (Reach.callInit baseState baseState .video (.ok ⟨7⟩) 1 1 (Reach.refl baseState))

/-! Notification dedupe. -/

/-- C8: once the notification effect has raised a notification for the
last message, re-firing the trigger with the same message list is a
complete no-op (same state, nothing raised) - so a given message id is
notified at most once within a chat - and any active-chat change resets
the dedupe token to empty. -/
theorem c8_notification_dedupe :
    (∀ (s : AppState) (h : Bool) (s₁ : AppState) (n : RaisedNotif),
      notifyEffect s h = (s₁, some n) →
      ∀ h', notifyEffect s₁ h' = (s₁, none)) ∧
    (∀ (s : AppState) (c : Option Chat),
      (setActiveChat s c).lastNotifiedMessageId = none) := by
  constructor
  · intro s h s₁ n heq h'
    unfold notifyEffect at heq
    split at heq
    · rename_i u chat hperm hcu hac
      split at heq
      · rename_i lastMessage hlast
        split at heq
        · rename_i hcond
          split at heq
          · rw [Prod.mk.injEq] at heq
            obtain ⟨hs, hn⟩ := heq
            subst hs
            simp [notifyEffect, hperm, hcu, hac, hlast]
          · simp at heq
        · simp at heq
      · simp at heq
    · simp at heq
  · intro s c
    rfl

def msgIn : Message :=
  { id := "m1", chatId := "c1", senderId := "u2", senderName := "Bob",
    content := "salut", timestamp := 10, type := .text }

def notifState : AppState := { baseState with messages := [msgIn] }

def notifState1 : AppState :=
  { notifState with lastNotifiedMessageId := some "m1" }

def raised1 : RaisedNotif :=
  { title := "Nouveau message de Bob", body := "salut", tag := "m1" }

/-- C8 witness: the concrete session raises once for message m1; the
immediate re-trigger is a no-op, and a chat switch clears the token. -/
theorem c8_notification_dedupe_witness :
    notifyEffect notifState1 false = (notifState1, none) ∧
    (setActiveChat baseState none).lastNotifiedMessageId = none := by
  refine ⟨c8_notification_dedupe.1 notifState true notifState1 raised1 ?_ false,
    c8_notification_dedupe.2 baseState none⟩
  rfl

/-! Timestamps and identity seeds. -/

/-- C9 counterexample: two successive sends within the same clock
millisecond produce equal timestamps (the later one is not strictly
greater), and a clock tick between the two Date.now() reads of a single
send makes the message id differ from the string of its own timestamp. -/
theorem c9_timestamps_cex :
    (sendMessage (sendMessage baseState "a" .text 100 100 (.ok none)).state
        "b" .text 100 100 (.ok none)).state.store "c1" =
      [mkMessage u1 "c1" "a" .text 100 100, mkMessage u1 "c1" "b" .text 100 100] ∧
    ¬ ((mkMessage u1 "c1" "a" .text 100 100).timestamp <
        (mkMessage u1 "c1" "b" .text 100 100).timestamp) ∧
    (sendMessage baseState "a" .text 5 6 (.ok none)).state.store "c1" =
      [mkMessage u1 "c1" "a" .text 5 6] ∧
    (mkMessage u1 "c1" "a" .text 5 6).id ≠
      toString (mkMessage u1 "c1" "a" .text 5 6).timestamp := by
  refine ⟨rfl, ?_, rfl, ?_⟩ <;> decide

/-- C9 amended: with a non-decreasing clock, successive sends carry
non-decreasing (not necessarily strictly increasing) timestamps; the id
is the string of the first clock reading of the send, which equals the
string of the timestamp exactly when the clock did not advance between
the two reads. -/
theorem c9_timestamps_amended (s : AppState) (u : User) (ch : Chat)
    (c₁ c₂ : String) (ty₁ ty₂ : SendType) (t1 t2 t1' t2' : Nat)
    (hu : s.currentUser = some u) (hc : s.activeChat = some ch)
    (h1 : t1 ≤ t2) (h2 : t2 ≤ t1') (h3 : t1' ≤ t2') :
    (sendMessage (sendMessage s c₁ ty₁ t1 t2 (.ok none)).state
        c₂ ty₂ t1' t2' (.ok none)).state.store ch.id =
      s.store ch.id ++ [mkMessage u ch.id c₁ ty₁.toMsgType t1 t2,
        mkMessage u ch.id c₂ ty₂.toMsgType t1' t2'] ∧
    (mkMessage u ch.id c₁ ty₁.toMsgType t1 t2).timestamp ≤
      (mkMessage u ch.id c₂ ty₂.toMsgType t1' t2').timestamp ∧
    (mkMessage u ch.id c₁ ty₁.toMsgType t1 t2).id = toString t1 ∧
    (t1 = t2 → (mkMessage u ch.id c₁ ty₁.toMsgType t1 t2).id =
      toString (mkMessage u ch.id c₁ ty₁.toMsgType t1 t2).timestamp) := by
  have ha := send_append s u ch c₁ ty₁ t1 t2 hu hc
  have hp := sendMessage_preserves s c₁ ty₁ t1 t2 (.ok none)
  have hb := send_append (sendMessage s c₁ ty₁ t1 t2 (.ok none)).state u ch
    c₂ ty₂ t1' t2' (hp.1.trans hu) (hp.2.1.trans hc)
  refine ⟨?_, ?_, rfl, ?_⟩
  · rw [hb.1, ha.1]
    simp
  · exact le_trans h2 h3
  · intro h12
    subst h12
    rfl

/-- C9 amended witness: a concrete two-send run with a non-decreasing
concrete clock. -/
theorem c9_timestamps_amended_witness :
    (sendMessage (sendMessage baseState "a" .text 10 11 (.ok none)).state
        "b" .text 12 13 (.ok none)).state.store "c1" =
      baseState.store "c1" ++ [mkMessage u1 "c1" "a" .text 10 11,
        mkMessage u1 "c1" "b" .text 12 13] ∧
    (mkMessage u1 "c1" "a" .text 10 11).timestamp ≤
      (mkMessage u1 "c1" "b" .text 12 13).timestamp := by
  have h := c9_timestamps_amended baseState u1 chat1 "a" "b" .text .text
    10 11 12 13 rfl rfl (by decide) (by decide) (by decide)
  exact ⟨h.1, h.2.1⟩

/-! initiateCall has no guard other than the active chat. -/

/-- C10: initiateCall proceeds for every prior call state (the quantified
state s places no constraint on activeCallType or the stored handle): on
success it overwrites the handle with the new media, sets the call state
to the requested kind, and makes exactly one acquire call and no release
call to the Media collaborator; without an active chat it is a complete
no-op. -/
theorem c10_initiateCall_no_guard (s : AppState) (ch : Chat) (k : CallKind)
    (m : MediaStreamAndTracks) (t1 t2 : Nat) (s' : AppState)
    (hc : s.activeChat = some ch) (hnone : s'.activeChat = none) :
    (initiateCall s k (.ok m) t1 t2).1.localMediaStreamAndTracks = some m ∧
    (initiateCall s k (.ok m) t1 t2).1.activeCallType = k.toActive ∧
    (initiateCall s k (.ok m) t1 t2).1.isCallViewVisible = true ∧
    (initiateCall s k (.ok m) t1 t2).2 = [.acquire (k = .voice)] ∧
    MediaEvent.release ∉ (initiateCall s k (.ok m) t1 t2).2 ∧
    (∀ (k' : CallKind) (med : Except Unit MediaStreamAndTracks) (t1' t2' : Nat),
      initiateCall s' k' med t1' t2' = (s', [])) := by
  have hp := fun c => sendMessage_preserves
    { s with localMediaStreamAndTracks := some m
             activeCallType := k.toActive
             isCallViewVisible := true
             activeChat := some ch }
    c SendType.text t1 t2 (.ok none)
  refine ⟨?_, ?_, ?_, ?_, ?_, ?_⟩
  · simp only [initiateCall, hc]
    exact (hp _).2.2.2.2.2.1
  · simp only [initiateCall, hc]
    exact (hp _).2.2.2.2.1
  · simp only [initiateCall, hc]
    exact (hp _).2.2.2.2.2.2
  · simp only [initiateCall, hc]
  · simp only [initiateCall, hc]
    simp
  · intro k' med t1' t2'
    simp [initiateCall, hnone]

def noChatState : AppState := { baseState with activeChat := none }

def busyState : AppState :=
  { baseState with activeCallType := .VOICE
                   localMediaStreamAndTracks := some ⟨1⟩
                   isCallViewVisible := true }

/-- C10 witness: from a session already in a VOICE call, a video
initiateCall overwrites the handle, switches the state to VIDEO and
performs only an acquire; the no-chat session is untouched. -/
theorem c10_initiateCall_no_guard_witness :
    busyState.activeCallType = .VOICE ∧
    (initiateCall busyState .video (.ok ⟨2⟩) 1 1).1.localMediaStreamAndTracks =
      some ⟨2⟩ ∧
    (initiateCall busyState .video (.ok ⟨2⟩) 1 1).1.activeCallType = .VIDEO ∧
    (initiateCall busyState .video (.ok ⟨2⟩) 1 1).2 = [.acquire false] ∧
    initiateCall noChatState .voice (.ok ⟨3⟩) 1 1 = (noChatState, []) := by
  have h := c10_initiateCall_no_guard busyState chat1 .video ⟨2⟩ 1 1
    noChatState rfl rfl
  exact ⟨rfl, h.1, h.2.1, h.2.2.2.1, h.2.2.2.2.2 .voice (.ok ⟨3⟩) 1 1⟩

end RoipChat
